import Mathlib

/-!
Shallow embedding of the VideoTube web client (frontend authentication glue).

Source files embedded:
- `src/frontend/src/pages/LoginPage.jsx`: the three event handlers of the
  login view (`handleLogin`, `handleGoogleLoginSuccess`,
  `handleGoogleLoginError`).
- `src/frontend/src/main.jsx`: the bootstrap that checks the identity-provider
  client identifier before rendering.

Modelling choices:
- Component state (`email`, `password`, `error`, `success`) becomes an explicit
  `UIState` record; the one `setTimeout(() => navigate('/'), 1000)` call is
  recorded as `scheduledNav : Option (String × Nat)` (path, delay in ms).
- Each handler returns the new state together with the list of outbound HTTP
  requests it issued, so "performs no network call" is `requests = []`.
- The external world (result of `jwtDecode(credential)`, result of `fetch`
  and of `response.json()`) is an oracle record `GoogleEnv`; JavaScript
  exceptions become `Except String` values carrying the thrown message.
- JavaScript truthiness on strings (`a || b`) is `jsOr`; an absent-or-falsy
  JSON field is an `Option String` read through `jsOrOpt`.
-/

/-- Ephemeral state of the login view: the four `useState` strings of
`LoginPage.jsx` plus the navigation scheduled by `setTimeout`. -/
structure UIState where
  email : String
  password : String
  error : String
  success : String
  scheduledNav : Option (String × Nat)
  deriving Repr, DecidableEq

/-- JavaScript `a || b` on strings: the empty string is falsy. -/
def jsOr (a b : String) : String := if a = "" then b else a

/-- JavaScript `a || b` where `a` is a possibly-absent string field:
`undefined` and `""` are falsy. -/
def jsOrOpt (a : Option String) (b : String) : String :=
  match a with
  | none => b
  | some s => jsOr s b

/-- Body of the one outbound request, `JSON.stringify(\x7b id_token: credential \x7d)`. -/
structure ReqBody where
  id_token : String
  deriving Repr, DecidableEq

/-- An outbound HTTP request as issued by `fetch` in `LoginPage.jsx`. -/
structure HttpRequest where
  method : String
  url : String
  contentType : String
  body : ReqBody
  deriving Repr, DecidableEq

/-- The JSON object obtained from `response.json()`: only its `detail` field
is ever read, as `data.detail`. -/
structure RespData where
  detail : Option String
  deriving Repr

/-- Outcome of a completed `fetch`: the HTTP status, and the result of
`response.json()` (which may throw on an unparseable body). -/
structure FetchOutcome where
  status : Nat
  jsonResult : Except String RespData
  deriving Repr

/-- Browser semantics of `response.ok`: status in the 2xx range. -/
def respOk (status : Nat) : Bool := 200 ≤ status && status ≤ 299

/-- Oracle for the external world seen by `handleGoogleLoginSuccess`:
the result of `jwtDecode(credential)` (its payload is only passed to
`console.log`, so it is modelled as `Unit`), and the result of `fetch`
(`Except.error` is a network failure thrown before any response exists). -/
structure GoogleEnv where
  decodeResult : Except String Unit
  fetchResult : Except String FetchOutcome
  deriving Repr

/-- Fallback of the catch block: `err.message || 'An unexpected error occurred.'`. -/
def unexpectedErrorMsg : String := "An unexpected error occurred."

/-- Embedding of `handleLogin` from `LoginPage.jsx`: clears both messages,
then sets the fixed not-implemented error; no `fetch` is reached. -/
def handleLogin (s : UIState) : UIState × List HttpRequest :=
  let s1 := { s with error := "", success := "" }
  ({ s1 with error := "Email/password login is not implemented yet." }, [])

/-- Fixed path appended to the backend base URL by `handleGoogleLoginSuccess`. -/
def googleAuthPath : String := "/api/v1/users/auth/google"

/-- The request built by the `fetch` call in `handleGoogleLoginSuccess`. -/
def googleAuthRequest (baseUrl credential : String) : HttpRequest :=
  { method := "POST"
  , url := baseUrl ++ googleAuthPath
  , contentType := "application/json"
  , body := { id_token := credential } }

/-- Embedding of `handleGoogleLoginSuccess` from `LoginPage.jsx`.
Inside the try block: both messages are cleared, `jwtDecode(credential)` runs
(throwing aborts to the catch with no request made), `fetch` posts the
credential, `response.json()` is awaited before `response.ok` is inspected,
a non-ok status throws `data.detail || 'Google login failed'`, and otherwise
the success message is set and navigation to `/` is scheduled after 1000 ms.
The catch block sets `err.message || 'An unexpected error occurred.'` as the
error. Returns the final state and the list of requests issued. -/
def handleGoogleLoginSuccess (baseUrl credential : String) (env : GoogleEnv)
    (s : UIState) : UIState × List HttpRequest :=
  let s1 := { s with error := "", success := "" }
  match env.decodeResult with
  | .error msg => ({ s1 with error := jsOr msg unexpectedErrorMsg }, [])
  | .ok _ =>
    let req := googleAuthRequest baseUrl credential
    match env.fetchResult with
    | .error msg => ({ s1 with error := jsOr msg unexpectedErrorMsg }, [req])
    | .ok outcome =>
      match outcome.jsonResult with
      | .error msg => ({ s1 with error := jsOr msg unexpectedErrorMsg }, [req])
      | .ok data =>
        if !(respOk outcome.status) then
          let thrown := jsOrOpt data.detail "Google login failed"
          ({ s1 with error := jsOr thrown unexpectedErrorMsg }, [req])
        else
          ({ s1 with success := "Login successful. Redirecting...",
                     scheduledNav := some ("/", 1000) }, [req])

/-- Embedding of `handleGoogleLoginError` from `LoginPage.jsx`: sets the fixed
failure message, clears the success message, issues no request. -/
def handleGoogleLoginError (s : UIState) : UIState × List HttpRequest :=
  ({ s with error := "Google login failed. Please try again.", success := "" }, [])

/-- Result of the `main.jsx` bootstrap: either the thrown error halts
initialization before `root.render`, or the application tree is rendered. -/
inductive InitResult where
  | halted (msg : String)
  | rendered
  deriving Repr, DecidableEq

/-- JavaScript truthiness of `import.meta.env.VITE_GOOGLE_CLIENT_ID`:
an absent variable is `undefined` (falsy) and the empty string is falsy. -/
def jsTruthyOptStr (v : Option String) : Bool :=
  match v with
  | none => false
  | some s => s != ""

/-- Embedding of the top level of `main.jsx`: reads the client identifier,
throws `Missing Google OAuth client ID` when it is falsy, and otherwise
proceeds to create the root and render the application. -/
def mainBootstrap (clientId : Option String) : InitResult :=
  if !(jsTruthyOptStr clientId) then .halted "Missing Google OAuth client ID"
  else .rendered

/-- Blank login-view state used as the concrete starting point in witnesses. -/
def s0 : UIState :=
  { email := "", password := "", error := "", success := "", scheduledNav := none }

/-- C1: when the credential decodes, the backend answers with status 200 and a
JSON body, the view sets the success message, schedules navigation to `/`
after 1000 ms, and leaves the error message empty. -/
theorem C1_success_path (baseUrl credential : String) (env : GoogleEnv)
    (s : UIState) (outcome : FetchOutcome) (data : RespData)
    (hdec : env.decodeResult = .ok ())
    (hfetch : env.fetchResult = .ok outcome)
    (hstatus : outcome.status = 200)
    (hjson : outcome.jsonResult = .ok data) :
    (handleGoogleLoginSuccess baseUrl credential env s).1.success
        = "Login successful. Redirecting..." ∧
    (handleGoogleLoginSuccess baseUrl credential env s).1.error = "" ∧
    (handleGoogleLoginSuccess baseUrl credential env s).1.scheduledNav
        = some ("/", 1000) := by
  simp [handleGoogleLoginSuccess, hdec, hfetch, hjson, hstatus, respOk]

/-- C1 witness: a concrete 200 response with a parseable body. -/
theorem C1_success_path_witness :
    (handleGoogleLoginSuccess "http://b" "cred"
        ⟨.ok (), .ok ⟨200, .ok ⟨none⟩⟩⟩ s0).1.success
        = "Login successful. Redirecting..." ∧
    (handleGoogleLoginSuccess "http://b" "cred"
        ⟨.ok (), .ok ⟨200, .ok ⟨none⟩⟩⟩ s0).1.error = "" ∧
    (handleGoogleLoginSuccess "http://b" "cred"
        ⟨.ok (), .ok ⟨200, .ok ⟨none⟩⟩⟩ s0).1.scheduledNav = some ("/", 1000) :=
  C1_success_path "http://b" "cred" ⟨.ok (), .ok ⟨200, .ok ⟨none⟩⟩⟩ s0
    ⟨200, .ok ⟨none⟩⟩ ⟨none⟩ rfl rfl rfl rfl

/-- Helper: whenever the local decode succeeds, exactly one request is issued,
the POST built by `googleAuthRequest`, regardless of how the fetch turns out. -/
theorem requests_of_decode_ok (baseUrl credential : String) (env : GoogleEnv)
    (s : UIState) (hdec : env.decodeResult = .ok ()) :
    (handleGoogleLoginSuccess baseUrl credential env s).2
      = [googleAuthRequest baseUrl credential] := by
  unfold handleGoogleLoginSuccess
  rw [hdec]
  rcases env.fetchResult with m | ⟨st, jr⟩
  · rfl
  · rcases jr with m | d
    · rfl
    · by_cases h : respOk st <;> simp [h]

/-- C2 counterexample: with the backend fixed to answer 200 and a parseable
body, a credential whose local decode throws yields an error message and no
backend request, while one whose decode succeeds yields the success message:
the outcome depends on the local decode and the credential is not POSTed. -/
theorem C2_counterexample :
    (handleGoogleLoginSuccess "http://b" "bad"
        ⟨.error "Invalid token specified", .ok ⟨200, .ok ⟨none⟩⟩⟩ s0).2 = [] ∧
    (handleGoogleLoginSuccess "http://b" "bad"
        ⟨.error "Invalid token specified", .ok ⟨200, .ok ⟨none⟩⟩⟩ s0).1.error
        = "Invalid token specified" ∧
    (handleGoogleLoginSuccess "http://b" "bad"
        ⟨.ok (), .ok ⟨200, .ok ⟨none⟩⟩⟩ s0).1.success
        = "Login successful. Redirecting..." ∧
    (handleGoogleLoginSuccess "http://b" "bad"
        ⟨.ok (), .ok ⟨200, .ok ⟨none⟩⟩⟩ s0).1.error = "" :=
  ⟨rfl, rfl, rfl, rfl⟩

/-- C2 (amended): provided the local decode of the credential succeeds, the
credential is POSTed to the backend and the outcome depends only on the
backend response: two runs with successful decode and identical fetch results
are identical; when the decode throws, its message is shown and no request
is made. -/
theorem C2_decode_noninterference (baseUrl credential : String)
    (env env' : GoogleEnv) (s : UIState)
    (hdec : env.decodeResult = .ok ()) (hdec' : env'.decodeResult = .ok ())
    (hf : env.fetchResult = env'.fetchResult) :
    handleGoogleLoginSuccess baseUrl credential env s
      = handleGoogleLoginSuccess baseUrl credential env' s ∧
    (handleGoogleLoginSuccess baseUrl credential env s).2
      = [googleAuthRequest baseUrl credential] := by
  constructor
  · unfold handleGoogleLoginSuccess
    rw [hdec, hdec', hf]
  · exact requests_of_decode_ok baseUrl credential env s hdec

/-- C2 (amended) witness: two concrete environments with successful decode
and the same backend answer. -/
theorem C2_decode_noninterference_witness :
    handleGoogleLoginSuccess "http://b" "cred"
        ⟨.ok (), .ok ⟨401, .ok ⟨some "Invalid token"⟩⟩⟩ s0
      = handleGoogleLoginSuccess "http://b" "cred"
        ⟨.ok (), .ok ⟨401, .ok ⟨some "Invalid token"⟩⟩⟩ s0 ∧
    (handleGoogleLoginSuccess "http://b" "cred"
        ⟨.ok (), .ok ⟨401, .ok ⟨some "Invalid token"⟩⟩⟩ s0).2
      = [googleAuthRequest "http://b" "cred"] :=
  C2_decode_noninterference "http://b" "cred"
    ⟨.ok (), .ok ⟨401, .ok ⟨some "Invalid token"⟩⟩⟩
    ⟨.ok (), .ok ⟨401, .ok ⟨some "Invalid token"⟩⟩⟩ s0 rfl rfl rfl

/-- C3: on a non-2xx response whose JSON body carries `detail = "Invalid
token"`, the view shows exactly `Invalid token` and schedules no navigation. -/
theorem C3_detail_message (baseUrl credential : String) (env : GoogleEnv)
    (s : UIState) (outcome : FetchOutcome) (data : RespData)
    (hdec : env.decodeResult = .ok ())
    (hfetch : env.fetchResult = .ok outcome)
    (hstatus : respOk outcome.status = false)
    (hjson : outcome.jsonResult = .ok data)
    (hdetail : data.detail = some "Invalid token") :
    (handleGoogleLoginSuccess baseUrl credential env s).1.error = "Invalid token" ∧
    (handleGoogleLoginSuccess baseUrl credential env s).1.scheduledNav
      = s.scheduledNav := by
  simp [handleGoogleLoginSuccess, hdec, hfetch, hjson, hstatus, hdetail,
    jsOrOpt, jsOr, unexpectedErrorMsg]

/-- C3 witness: a concrete 401 response with `detail = "Invalid token"`. -/
theorem C3_detail_message_witness :
    (handleGoogleLoginSuccess "http://b" "cred"
        ⟨.ok (), .ok ⟨401, .ok ⟨some "Invalid token"⟩⟩⟩ s0).1.error
      = "Invalid token" ∧
    (handleGoogleLoginSuccess "http://b" "cred"
        ⟨.ok (), .ok ⟨401, .ok ⟨some "Invalid token"⟩⟩⟩ s0).1.scheduledNav
      = s0.scheduledNav :=
  C3_detail_message "http://b" "cred"
    ⟨.ok (), .ok ⟨401, .ok ⟨some "Invalid token"⟩⟩⟩ s0
    ⟨401, .ok ⟨some "Invalid token"⟩⟩ ⟨some "Invalid token"⟩
    rfl rfl rfl rfl rfl

/-- C4: on a non-2xx response whose JSON body has no `detail` field or a falsy
one, the view shows the fallback `Google login failed` and schedules no
navigation. -/
theorem C4_fallback_message (baseUrl credential : String) (env : GoogleEnv)
    (s : UIState) (outcome : FetchOutcome) (data : RespData)
    (hdec : env.decodeResult = .ok ())
    (hfetch : env.fetchResult = .ok outcome)
    (hstatus : respOk outcome.status = false)
    (hjson : outcome.jsonResult = .ok data)
    (hdetail : data.detail = none ∨ data.detail = some "") :
    (handleGoogleLoginSuccess baseUrl credential env s).1.error
      = "Google login failed" ∧
    (handleGoogleLoginSuccess baseUrl credential env s).1.scheduledNav
      = s.scheduledNav := by
  rcases hdetail with h | h <;>
    simp [handleGoogleLoginSuccess, hdec, hfetch, hjson, hstatus, h,
      jsOrOpt, jsOr, unexpectedErrorMsg]

/-- C4 witness: a concrete 500 response whose body has no `detail` field. -/
theorem C4_fallback_message_witness :
    (handleGoogleLoginSuccess "http://b" "cred"
        ⟨.ok (), .ok ⟨500, .ok ⟨none⟩⟩⟩ s0).1.error = "Google login failed" ∧
    (handleGoogleLoginSuccess "http://b" "cred"
        ⟨.ok (), .ok ⟨500, .ok ⟨none⟩⟩⟩ s0).1.scheduledNav = s0.scheduledNav :=
  C4_fallback_message "http://b" "cred" ⟨.ok (), .ok ⟨500, .ok ⟨none⟩⟩⟩ s0
    ⟨500, .ok ⟨none⟩⟩ ⟨none⟩ rfl rfl rfl rfl (Or.inl rfl)

/-- C5: the widget failure handler sets the fixed message, clears the success
message, and issues no HTTP request. -/
theorem C5_widget_failure (s : UIState) :
    (handleGoogleLoginError s).1.error = "Google login failed. Please try again." ∧
    (handleGoogleLoginError s).1.success = "" ∧
    (handleGoogleLoginError s).2 = [] :=
  ⟨rfl, rfl, rfl⟩

/-- C6: every submission of the email/password form, whatever the field
values, sets the fixed not-implemented message, clears the success message,
and issues no HTTP request. -/
theorem C6_form_submit (s : UIState) :
    (handleLogin s).1.error = "Email/password login is not implemented yet." ∧
    (handleLogin s).1.success = "" ∧
    (handleLogin s).2 = [] :=
  ⟨rfl, rfl, rfl⟩

/-- C7: a missing client identifier halts initialization with the thrown
message before rendering, and any present non-empty identifier renders. -/
theorem C7_bootstrap_clientId (c : String) (h : c ≠ "") :
    mainBootstrap none = InitResult.halted "Missing Google OAuth client ID" ∧
    mainBootstrap (some c) = InitResult.rendered := by
  refine ⟨rfl, ?_⟩
  simp [mainBootstrap, jsTruthyOptStr, h]

/-- C7 witness: a concrete non-empty client identifier. -/
theorem C7_bootstrap_clientId_witness :
    mainBootstrap none = InitResult.halted "Missing Google OAuth client ID" ∧
    mainBootstrap (some "client-123") = InitResult.rendered :=
  C7_bootstrap_clientId "client-123" (by decide)

/-- C8: every credential forwarded on identity-provider success travels as a
single POST to the backend base URL plus `/api/v1/users/auth/google`, with
JSON content type and body carrying the credential verbatim as `id_token`. -/
theorem C8_request_shape (baseUrl credential : String) (env : GoogleEnv)
    (s : UIState) (hdec : env.decodeResult = .ok ()) :
    (handleGoogleLoginSuccess baseUrl credential env s).2
      = [ { method := "POST"
          , url := baseUrl ++ "/api/v1/users/auth/google"
          , contentType := "application/json"
          , body := { id_token := credential } } ] :=
  requests_of_decode_ok baseUrl credential env s hdec

/-- C8 witness: a concrete credential and backend answer. -/
theorem C8_request_shape_witness :
    (handleGoogleLoginSuccess "http://b" "cred"
        ⟨.ok (), .ok ⟨200, .ok ⟨none⟩⟩⟩ s0).2
      = [ { method := "POST"
          , url := "http://b" ++ "/api/v1/users/auth/google"
          , contentType := "application/json"
          , body := { id_token := "cred" } } ] :=
  C8_request_shape "http://b" "cred" ⟨.ok (), .ok ⟨200, .ok ⟨none⟩⟩⟩ s0 rfl

/-- C9: after any of the three handlers, at most one of the error and success
messages is non-empty, whatever state the view started in and whatever the
environment did. -/
theorem C9_at_most_one_alert (baseUrl credential : String) (env : GoogleEnv)
    (s : UIState) :
    ((handleLogin s).1.error = "" ∨ (handleLogin s).1.success = "") ∧
    ((handleGoogleLoginError s).1.error = ""
      ∨ (handleGoogleLoginError s).1.success = "") ∧
    ((handleGoogleLoginSuccess baseUrl credential env s).1.error = ""
      ∨ (handleGoogleLoginSuccess baseUrl credential env s).1.success = "") := by
  refine ⟨Or.inr rfl, Or.inr rfl, ?_⟩
  unfold handleGoogleLoginSuccess
  rcases env.decodeResult with m | u
  · exact Or.inr rfl
  · rcases env.fetchResult with m | ⟨st, jr⟩
    · exact Or.inr rfl
    · rcases jr with m | d
      · exact Or.inr rfl
      · by_cases h : respOk st <;> simp [h]

/-- C10: when the response body fails to parse as JSON, even under HTTP status
200, no success message is set and no navigation is scheduled; the parse
error message becomes the displayed error, because the body is parsed before
the status is checked. -/
theorem C10_parse_precedes_status (baseUrl credential : String)
    (env : GoogleEnv) (s : UIState) (outcome : FetchOutcome) (msg : String)
    (hdec : env.decodeResult = .ok ())
    (hfetch : env.fetchResult = .ok outcome)
    (hjson : outcome.jsonResult = .error msg)
    (hmsg : msg ≠ "") :
    (handleGoogleLoginSuccess baseUrl credential env s).1.success = "" ∧
    (handleGoogleLoginSuccess baseUrl credential env s).1.scheduledNav
      = s.scheduledNav ∧
    (handleGoogleLoginSuccess baseUrl credential env s).1.error = msg := by
  simp [handleGoogleLoginSuccess, hdec, hfetch, hjson, jsOr, hmsg]

/-- C10 witness: a 200 response whose body is not JSON. -/
theorem C10_parse_precedes_status_witness :
    (handleGoogleLoginSuccess "http://b" "cred"
        ⟨.ok (), .ok ⟨200, .error "Unexpected end of JSON input"⟩⟩ s0).1.success
      = "" ∧
    (handleGoogleLoginSuccess "http://b" "cred"
        ⟨.ok (), .ok ⟨200, .error "Unexpected end of JSON input"⟩⟩ s0).1.scheduledNav
      = s0.scheduledNav ∧
    (handleGoogleLoginSuccess "http://b" "cred"
        ⟨.ok (), .ok ⟨200, .error "Unexpected end of JSON input"⟩⟩ s0).1.error
      = "Unexpected end of JSON input" :=
  C10_parse_precedes_status "http://b" "cred"
    ⟨.ok (), .ok ⟨200, .error "Unexpected end of JSON input"⟩⟩ s0
    ⟨200, .error "Unexpected end of JSON input"⟩ "Unexpected end of JSON input"
    rfl rfl rfl (by decide)
